import Mathlib

/-!
Verification of the filedog file-organizer core.

We shallowly embed the Python sources under `src/` into Lean:
* the filesystem is modelled as an association list from paths (lists of
  name components) to file contents, together with a list of directories;
* `FileOrganizer.get_folder_name`, `check_create_dir`, `move_data` and
  `check_and_move` (src/core/organizer.py) become pure functions over this
  model;
* `CrossPlatformFileOrganizer._get_file_type`, `_get_folder_name`,
  `_move_file` and `organize_directory` (src/cli.py) likewise;
* `FileWatcherService.add_watched_directory` / `start_watching`
  (src/core/file_watcher.py) become functions over an explicit config and
  watcher state;
* the debouncing handler `FileOrganizerHandler` becomes a small transition
  system over a pending-timer table, with a discrete-time event semantics
  for the per-path `threading.Timer` of delay 2.
-/

/-- A filesystem path, as its list of name components. -/
abbrev FPath := List String

/-- Filesystem model: regular files (path with content) and directories. -/
structure FS where
  files : List (FPath × String)
  dirs : List FPath
deriving DecidableEq, Repr

namespace FS

/-- Content of the regular file at `p`, if any (models reading the file). -/
def fileContent (fs : FS) (p : FPath) : Option String :=
  (fs.files.find? (fun e => e.1 = p)).map (·.2)

/-- Python `Path.is_file()`: a regular file exists at `p`. -/
def fileExists (fs : FS) (p : FPath) : Bool :=
  (fs.fileContent p).isSome

/-- A directory exists at `p`. -/
def dirExists (fs : FS) (p : FPath) : Bool :=
  fs.dirs.contains p

/-- Python `Path.exists()`: something (file or directory) exists at `p`. -/
def pexists (fs : FS) (p : FPath) : Bool :=
  fs.fileExists p || fs.dirExists p

/-- Write content `c` at path `p`, replacing any file already there. -/
def setFile (fs : FS) (p : FPath) (c : String) : FS :=
  { fs with files := (p, c) :: fs.files.filter (fun e => ¬ e.1 = p) }

/-- Remove the regular file at `p`. -/
def removeFile (fs : FS) (p : FPath) : FS :=
  { fs with files := fs.files.filter (fun e => ¬ e.1 = p) }

/-- Create directory `p` (no effect on files). -/
def addDir (fs : FS) (p : FPath) : FS :=
  { fs with dirs := p :: fs.dirs }

/-- The names of the top-level regular files of directory `p`
(`[f for f in path.iterdir() if f.is_file()]` in src/cli.py). -/
def filesIn (fs : FS) (p : FPath) : List String :=
  (fs.files.filter (fun e => e.1.dropLast = p ∧ e.1 ≠ [])).map
    (fun e => e.1.getLast?.getD "")

end FS

/-- Python `shutil.move(src, dst)` where `dst` is a full target path: raises
when the source does not exist or when the directory that should contain
`dst` does not exist; otherwise renames, silently replacing any regular file
already at `dst` (POSIX `os.rename` semantics; the cross-device `copy2`
fallback also overwrites). -/
def shutil_move (fs : FS) (src dst : FPath) : Except String FS :=
  match fs.fileContent src with
  | none => .error "FileNotFoundError"
  | some c =>
    if fs.dirExists dst.dropLast then .ok ((fs.removeFile src).setFile dst c)
    else .error "NotADirectoryError"

/-- The type→folder mapping table (`folder_config.json` / the CLI default
config): one insertion-ordered table of (type-or-prefix, folder) entries plus
a default folder. A Python dict with unique keys is modelled as an
association list in insertion order. -/
structure MappingConfig where
  file_type : List (String × String)
  default : String
deriving DecidableEq, Repr

/-- Python's `s.startswith(p)`, via the character lists of the strings (the
built-in `String.startsWith` does not reduce in the kernel). -/
def pyStartsWith (s p : String) : Bool :=
  p.toList.isPrefixOf s.toList

/-- Embeds `FileOrganizer.get_folder_name` (src/core/organizer.py lines 75-92),
identical in logic to `CrossPlatformFileOrganizer._get_folder_name`
(src/cli.py lines 114-126): exact-key lookup first; otherwise scan all table
entries in order and return the first whose key is a prefix of `file_type`;
otherwise the default folder. -/
def get_folder_name (file_type : String) (config : MappingConfig) : String :=
  match config.file_type.find? (fun e => e.1 = file_type) with
  | some e => e.2
  | none =>
    match config.file_type.find? (fun e => pyStartsWith file_type e.1) with
    | some e => e.2
    | none => config.default

/-- Python `Path.mkdir(parents=..., exist_ok=...)`: raises `FileExistsError` when the
target already exists and `exist_ok` is false; otherwise creates the
directory (a no-op when it already exists as a directory). -/
def py_mkdir (fs : FS) (p : FPath) (exist_ok : Bool) : Except String FS :=
  if fs.pexists p then
    if exist_ok && fs.dirExists p then .ok fs else .error "FileExistsError"
  else .ok (fs.addDir p)

/-- Embeds `FileOrganizer.check_create_dir` (src/core/organizer.py lines 55-61):
if `path/folder_name` does not exist, `mkdir(parents=True, exist_ok=True)`;
otherwise just log that the folder exists. -/
def check_create_dir (fs : FS) (path : FPath) (folder_name : String) :
    Except String FS :=
  let folder_path := path ++ [folder_name]
  if ¬ fs.pexists folder_path then py_mkdir fs folder_path true
  else .ok fs

/-- Embeds `FileOrganizer.move_data` (src/core/organizer.py lines 63-73): moves
`path/file` to `path/folder_name/file` with `shutil.move` — no collision
check of any kind — returning `true` on success; any exception is caught and
`false` is returned with the filesystem unchanged. -/
def move_data (fs : FS) (path : FPath) (folder_name file : String) :
    Bool × FS :=
  let source := path ++ [file]
  let target := path ++ [folder_name, file]
  match shutil_move fs source target with
  | .ok fs' => (true, fs')
  | .error _ => (false, fs)

/-- Python `PurePath.suffix`: the extension from the last dot of the name,
provided that dot is neither the first nor the last character; `stem` is the
rest. Returns `(stem, suffix)`. -/
def pySplitExt (name : String) : String × String :=
  let cs := name.toList
  match (cs.reverse.indexOf '.' : Nat) with
  | j =>
    let i := cs.length - 1 - j
    if 0 < i ∧ j ≠ 0 ∧ j < cs.length then
      (⟨cs.take i⟩, ⟨cs.drop i⟩)
    else (name, "")

/-- The collision loop of `CrossPlatformFileOrganizer._move_file`
(src/cli.py lines 160-167): starting from target `tgt` and counter `counter`,
`while target_path.exists(): target_path = target_dir / (stem_counter suffix);
counter += 1`. `fuel` bounds the unrolling; `none` means the fuel ran out
while every candidate so far existed. -/
def resolveTargetAux (fs : FS) (target_dir : FPath) (stem suffix : String) :
    Nat → Nat → FPath → Option FPath
  | fuel, counter, tgt =>
    if fs.pexists tgt then
      match fuel with
      | 0 => none
      | fuel' + 1 =>
        resolveTargetAux fs target_dir stem suffix fuel' (counter + 1)
          (target_dir ++ [stem ++ "_" ++ toString counter ++ suffix])
    else some tgt

/-- The target-path computation of `_move_file`: initial target is
`target_dir / source.name`, `stem`/`suffix` come from that name, the counter
starts at 1. -/
def resolveTarget (fs : FS) (target_dir : FPath) (name : String) (fuel : Nat) :
    Option FPath :=
  let (stem, suffix) := pySplitExt name
  resolveTargetAux fs target_dir stem suffix fuel 1 (target_dir ++ [name])

/-- Embeds `CrossPlatformFileOrganizer._move_file` (src/cli.py lines 156-176): pick
the first free target name, then `shutil.move`; returns `true` on success,
`false` (filesystem unchanged) when the move raises. `none` only when the
collision loop exceeds `fuel`. -/
def move_file (fs : FS) (src_dir : FPath) (name : String) (target_dir : FPath)
    (fuel : Nat) : Option (Bool × FS) :=
  match resolveTarget fs target_dir name fuel with
  | none => none
  | some target_path =>
    match shutil_move fs (src_dir ++ [name]) target_path with
    | .ok fs' => some (true, fs')
    | .error _ => some (false, fs)

/-- Embeds `FileOrganizer.check_and_move` (src/core/organizer.py lines 94-110):
resolve the folder, `check_create_dir`, then `move_data`; `move_data`'s
boolean result `res` is only logged — the function returns `True` whenever no
exception escaped, even when `res` is `False`. Only an exception (here: a
`check_create_dir` failure) yields `False`. The global `folder_config` is
passed explicitly as `config`. -/
def check_and_move (fs : FS) (config : MappingConfig) (file file_type : String)
    (path : FPath) : Bool × FS :=
  let folder_name := get_folder_name file_type config
  match check_create_dir fs path folder_name with
  | .error _ => (false, fs)
  | .ok fs1 =>
    let (_res, fs2) := move_data fs1 path folder_name file
    (true, fs2)

/-- The per-invocation counters of `FileOrganizer.organize`
(`processed_count`, `success_count`). -/
structure OrganizeCounts where
  processed : Nat
  success : Nat
deriving DecidableEq, Repr

/-- One iteration of the loop of `FileOrganizer.organize`
(src/core/organizer.py lines 29-42): skip non-files; `magic.from_file` is the
`detector` (`none` models it raising) — on failure the exception is caught,
the file is skipped and neither counter advances; otherwise `check_and_move`,
`success_count` advances when it returned `True`, and `processed_count`
advances. -/
def organize_step (config : MappingConfig) (detector : String → Option String)
    (path : FPath) (st : OrganizeCounts × FS) (file : String) :
    OrganizeCounts × FS :=
  let (c, fs) := st
  if fs.fileExists (path ++ [file]) then
    match detector file with
    | none => (c, fs)
    | some file_type =>
      let (res, fs') := check_and_move fs config file file_type path
      (⟨c.processed + 1, c.success + (if res then 1 else 0)⟩, fs')
  else (c, fs)

/-- The loop of `FileOrganizer.organize` over the directory listing `files`,
starting from zeroed counters. -/
def organize (config : MappingConfig) (detector : String → Option String)
    (path : FPath) (files : List String) (fs : FS) : OrganizeCounts × FS :=
  files.foldl (organize_step config detector path) (⟨0, 0⟩, fs)

/-- Embeds `CrossPlatformFileOrganizer._get_file_type` (src/cli.py lines 101-112):
with `python-magic` present, the magic result, or `application/octet-stream`
if it raised (`none`); without it, the `mimetypes` guess with the same
fallback for `None` or an exception. -/
def get_file_type (has_magic : Bool) (magicResult mimeResult : Option String) :
    String :=
  if has_magic then magicResult.getD "application/octet-stream"
  else mimeResult.getD "application/octet-stream"

/-- Embeds `CrossPlatformFileOrganizer._sanitize_folder_name` (src/cli.py lines
128-142): replace `<>:"|?*` by `_`, strip leading/trailing spaces and dots,
substitute `Unknown` for an empty result. -/
def sanitize_folder_name (folder_name : String) : String :=
  let replaced := folder_name.toList.map
    (fun c => if c ∈ ['<', '>', ':', '"', '|', '?', '*'] then '_' else c)
  let stripped :=
    (((replaced.dropWhile (fun c => c = ' ' ∨ c = '.')).reverse.dropWhile
      (fun c => c = ' ' ∨ c = '.')).reverse)
  if stripped.isEmpty then "Unknown" else ⟨stripped⟩

/-- Embeds `CrossPlatformFileOrganizer._create_directory` (src/cli.py lines
144-154): sanitize the name, `mkdir(exist_ok=True)` (an exception is
re-raised to the caller), return the folder path. -/
def create_directory (fs : FS) (path : FPath) (folder_name : String) :
    Except String (FPath × FS) :=
  let fn := sanitize_folder_name folder_name
  let folder_path := path ++ [fn]
  match py_mkdir fs folder_path true with
  | .ok fs' => .ok (folder_path, fs')
  | .error e => .error e

/-- The `self.stats` counters of `CrossPlatformFileOrganizer`. -/
structure CliStats where
  processed : Nat
  moved : Nat
  errors : Nat
  skipped : Nat
deriving DecidableEq, Repr

/-- One iteration of the per-file loop of
`CrossPlatformFileOrganizer.organize_directory` (src/cli.py lines 230-266):
determine type and folder; under `dry_run` only `processed` advances;
otherwise create the directory and move, counting `moved` or `errors`, and
an exception (directory creation failure) counts an error without advancing
`processed`. The `none` result of `move_file` (collision-loop fuel
exhaustion, impossible in the real program on a finite directory) is mapped
to the error branch. -/
def organize_directory_step (config : MappingConfig) (has_magic : Bool)
    (magicRes mimeRes : String → Option String) (dry_run : Bool)
    (path : FPath) (fuel : Nat) (st : CliStats × FS) (file : String) :
    CliStats × FS :=
  let (stats, fs) := st
  let file_type := get_file_type has_magic (magicRes file) (mimeRes file)
  let folder_name := get_folder_name file_type config
  if dry_run then
    ({ stats with processed := stats.processed + 1 }, fs)
  else
    match create_directory fs path folder_name with
    | .error _ => ({ stats with errors := stats.errors + 1 }, fs)
    | .ok (target_dir, fs1) =>
      match move_file fs1 path file target_dir fuel with
      | some (true, fs2) =>
        ({ stats with moved := stats.moved + 1, processed := stats.processed + 1 }, fs2)
      | some (false, fs2) =>
        ({ stats with errors := stats.errors + 1, processed := stats.processed + 1 }, fs2)
      | none => ({ stats with errors := stats.errors + 1 }, fs1)

/-- Embeds `CrossPlatformFileOrganizer.organize_directory` (src/cli.py lines
204-272): list the top-level regular files of `path` and run the per-file
loop over them, starting from the constructor's zeroed stats. -/
def organize_directory (config : MappingConfig) (has_magic : Bool)
    (magicRes mimeRes : String → Option String) (dry_run : Bool)
    (path : FPath) (fuel : Nat) (fs : FS) : CliStats × FS :=
  (fs.filesIn path).foldl
    (organize_directory_step config has_magic magicRes mimeRes dry_run path fuel)
    (⟨0, 0, 0, 0⟩, fs)

/-- The persisted watcher configuration (`watcher_config.json`), restricted
to the fields the watcher reads. -/
structure WatcherConfig where
  watched_directories : List String
  watcher_enabled : Bool
deriving DecidableEq, Repr

/-- Embeds `FileWatcherService.add_watched_directory` (src/core/file_watcher.py
lines 127-152) for an already-resolved `path_str`: refuse (no save) when the
path does not exist or is not a directory; refuse (no save) when already in
the watch list; otherwise append and persist. `path_exists` / `path_is_dir`
model the filesystem checks on the resolved path. -/
def add_watched_directory (path_exists path_is_dir : Bool)
    (config : WatcherConfig) (path_str : String) : Bool × WatcherConfig :=
  if ¬ path_exists then (false, config)
  else if ¬ path_is_dir then (false, config)
  else if ¬ config.watched_directories.contains path_str then
    (true, { config with
             watched_directories := config.watched_directories ++ [path_str] })
  else (false, config)

/-- The mutable service state of `FileWatcherService`: `is_running` and the
keys of the `watched_paths` watch-handle table. -/
structure WatcherState where
  is_running : Bool
  watched_paths : List String
deriving DecidableEq, Repr

/-- Embeds `FileWatcherService.start_watching` (src/core/file_watcher.py lines
187-215): already running → warn, `False`; `watcher_enabled` false → warn,
`False`; otherwise create the observer, schedule every configured directory
that exists (non-existent ones are skipped with a warning;
`_start_watching_directory` also swallows a failing `observer.schedule`,
modelled by `schedule_ok`), start the observer thread and set
`is_running = True`. There is no emptiness check on the directory list. -/
def start_watching (dir_exists schedule_ok : String → Bool)
    (config : WatcherConfig) (s : WatcherState) : Bool × WatcherState :=
  if s.is_running then (false, s)
  else if ¬ config.watcher_enabled then (false, s)
  else
    (true,
     { is_running := true,
       watched_paths := config.watched_directories.filter
         (fun d => dir_exists d && schedule_ok d) })

/-- The debouncing state of `FileOrganizerHandler`: the `pending_files` dict
(path ↦ identifier of its live `threading.Timer`), the set of timer ids that
have been `.cancel()`ed, and a fresh-id counter for newly created timers. -/
structure HandlerState where
  pending : List (String × Nat)
  cancelled : List Nat
  next_id : Nat
deriving DecidableEq, Repr

/-- Embeds `FileOrganizerHandler._schedule_file_processing` (src/core/file_watcher.py
lines 38-49), under `timer_lock`: cancel the pending timer for `p` if there
is one, then create a fresh timer and store it as the (single) entry for `p`.
-/
def schedule_file_processing (s : HandlerState) (p : String) : HandlerState :=
  let cancelled' :=
    match s.pending.find? (fun e => e.1 = p) with
    | some e => e.2 :: s.cancelled
    | none => s.cancelled
  { pending := (p, s.next_id) :: s.pending.filter (fun e => ¬ e.1 = p),
    cancelled := cancelled',
    next_id := s.next_id + 1 }

/-- The effect of `FileOrganizerHandler._process_file`
(src/core/file_watcher.py lines 51-76) on the pending table: whether the body
organized the file normally or raised (`raises` — the exception is caught and
logged), the `finally` block deletes the entry for `p` under `timer_lock`. -/
def process_file_pending (s : HandlerState) (p : String) (raises : Bool) :
    HandlerState :=
  if raises then
    { s with pending := s.pending.filter (fun e => ¬ e.1 = p) }
  else
    { s with pending := s.pending.filter (fun e => ¬ e.1 = p) }

/-- Discrete-time firing semantics of the per-path timers for ONE path, with
`processing_delay = 2`: given the time `cur` of the path's latest schedule
call and the (increasing) times `ts` of its subsequent schedule calls, return
the times at which `_process_file` fires for that path. A timer set at `cur`
fires at `cur + 2` unless another event arrives strictly before `cur + 2`, in
which case `_schedule_file_processing` cancels it and starts a timer at the
new event's time. -/
def debounce_fires : Nat → List Nat → List Nat
  | cur, [] => [cur + 2]
  | cur, t :: ts =>
    if t < cur + 2 then debounce_fires t ts
    else (cur + 2) :: debounce_fires t ts

/-- Fire times for a full (increasing) list of schedule-call times of one
path: no call, no fire; otherwise run the timer semantics from the first
call. -/
def debounceFireTimes : List Nat → List Nat
  | [] => []
  | t :: ts => debounce_fires t ts

/-! Sanity checks for the embedded definitions on concrete inputs. -/

theorem organize_directory_step_dry (config : MappingConfig) (has_magic : Bool)
    (magicRes mimeRes : String → Option String) (path : FPath) (fuel : Nat)
    (stats : CliStats) (fs : FS) (file : String) :
    organize_directory_step config has_magic magicRes mimeRes true path fuel
        (stats, fs) file
      = ({ stats with processed := stats.processed + 1 }, fs) := rfl

theorem organize_directory_foldl_dry (config : MappingConfig) (has_magic : Bool)
    (magicRes mimeRes : String → Option String) (path : FPath) (fuel : Nat)
    (files : List String) (stats : CliStats) (fs : FS) :
    files.foldl
        (organize_directory_step config has_magic magicRes mimeRes true path fuel)
        (stats, fs)
      = ({ stats with processed := stats.processed + files.length }, fs) := by
  induction files generalizing stats with
  | nil => simp
  | cons f t ih =>
    rw [List.foldl_cons, organize_directory_step_dry, ih]
    simp [Nat.add_comm, Nat.add_assoc, Nat.add_left_comm]

/-- C10: a manual `organize_directory` invocation with `dry_run = true` moves
no files and creates no folders — the filesystem is returned unchanged — the
`moved`, `errors` and `skipped` counters stay zero, and only `processed`
advances, by exactly the number of top-level files of the target directory. -/
theorem organize_directory_dry_run_frame (config : MappingConfig)
    (has_magic : Bool) (magicRes mimeRes : String → Option String)
    (path : FPath) (fuel : Nat) (fs : FS) :
    organize_directory config has_magic magicRes mimeRes true path fuel fs
      = (⟨(fs.filesIn path).length, 0, 0, 0⟩, fs) := by
  unfold organize_directory
  rw [organize_directory_foldl_dry]
  simp

/-- C6: `add_watched_directory` on a non-existent path, on a non-directory
path, or on an already-watched path returns `False` and leaves the persisted
watch list unchanged; and it preserves duplicate-freeness of the list. -/
theorem add_watched_directory_spec (path_exists path_is_dir : Bool)
    (config : WatcherConfig) (path_str : String) :
    (path_exists = false →
       add_watched_directory path_exists path_is_dir config path_str
         = (false, config))
  ∧ (path_is_dir = false →
       add_watched_directory path_exists path_is_dir config path_str
         = (false, config))
  ∧ (path_str ∈ config.watched_directories →
       add_watched_directory path_exists path_is_dir config path_str
         = (false, config))
  ∧ (config.watched_directories.Nodup →
       ((add_watched_directory path_exists path_is_dir config path_str).2).watched_directories.Nodup) := by
  refine ⟨?_, ?_, ?_, ?_⟩
  · intro h; subst h; rfl
  · intro h; subst h
    cases path_exists <;> rfl
  · intro h
    cases path_exists with
    | false => rfl
    | true =>
      cases path_is_dir with
      | false => rfl
      | true =>
        simp [add_watched_directory, h]
  · intro h
    cases path_exists with
    | false => exact h
    | true =>
      cases path_is_dir with
      | false => exact h
      | true =>
        by_cases hm : path_str ∈ config.watched_directories
        · simpa [add_watched_directory, hm] using h
        · simp [add_watched_directory, hm, List.nodup_append,
            List.disjoint_singleton, h]

/-- C6 witness: the three refusal/invariant cases at concrete inputs. -/
theorem add_watched_directory_spec_witness :
    add_watched_directory false true ⟨["/home/u/Downloads"], true⟩ "/tmp/x"
      = (false, ⟨["/home/u/Downloads"], true⟩)
  ∧ add_watched_directory true true ⟨["/home/u/Downloads"], true⟩
        "/home/u/Downloads"
      = (false, ⟨["/home/u/Downloads"], true⟩)
  ∧ ((add_watched_directory true true ⟨["/home/u/Downloads"], true⟩
        "/tmp/x").2).watched_directories.Nodup := by
  refine ⟨(add_watched_directory_spec _ _ _ _).1 rfl,
          (add_watched_directory_spec _ _ _ _).2.2.1 (by decide),
          (add_watched_directory_spec _ _ _ _).2.2.2 (by decide)⟩

/-- C7 counterexample: with the watcher enabled, the Stopped service and an
EMPTY configured directory list, `start_watching` is not a warned no-op as
claimed — it returns `True` and transitions to Running (the code has no
emptiness check on the list). -/
theorem start_watching_empty_list_starts :
    start_watching (fun _ => false) (fun _ => true) ⟨[], true⟩ ⟨false, []⟩
      = (true, ⟨true, []⟩) := rfl

/-- C7 (amended): from the Stopped state, `start_watching` is a warned no-op
returning `False` when the enabled flag is false; otherwise — even with an
empty directory list — it subscribes exactly the configured directories that
exist and whose subscription succeeds (others are skipped with a warning),
and transitions to Running returning `True`. -/
theorem start_watching_spec (dir_exists schedule_ok : String → Bool)
    (config : WatcherConfig) (s : WatcherState) (h : s.is_running = false) :
    (config.watcher_enabled = false →
       start_watching dir_exists schedule_ok config s = (false, s))
  ∧ (config.watcher_enabled = true →
       start_watching dir_exists schedule_ok config s
         = (true, ⟨true, config.watched_directories.filter
             (fun d => dir_exists d && schedule_ok d)⟩)) := by
  constructor
  · intro he
    simp [start_watching, h, he]
  · intro he
    simp [start_watching, h, he]

theorem debounce_fires_chain (cur : Nat) (ts : List Nat)
    (h : List.Chain (fun a b => b < a + 2) cur ts) :
    debounce_fires cur ts
      = [(cur :: ts).getLast (List.cons_ne_nil cur ts) + 2] := by
  induction ts generalizing cur with
  | nil => rfl
  | cons t ts ih =>
    cases h with
    | cons hlt hchain =>
      unfold debounce_fires
      rw [if_pos hlt, ih t hchain]
      rw [List.getLast_cons (List.cons_ne_nil t ts)]

/-- C4: rapid repeated file-event signals for one path — schedule-call times
`t :: ts`, each arriving strictly within the 2-unit quiet interval of its
predecessor — produce exactly one firing of the deferred processing, at 2
units after the last signal (each schedule call cancels the pending timer
and starts a new one, so only the final timer fires). -/
theorem debounce_single_fire (t : Nat) (ts : List Nat)
    (hrapid : List.Chain (fun a b => b < a + 2) t ts) :
    debounceFireTimes (t :: ts)
      = [(t :: ts).getLast (List.cons_ne_nil t ts) + 2] :=
  debounce_fires_chain t ts hrapid

/-- C4 witness: three signals at times 0, 1, 2 (gaps below the quiet
interval) fire exactly once, at time 4. -/
theorem debounce_single_fire_witness : debounceFireTimes [0, 1, 2] = [4] := by
  have h := debounce_single_fire 0 [1, 2]
    (List.Chain.cons (by decide) (List.Chain.cons (by decide) List.Chain.nil))
  exact h.trans (by decide)

/-- C5: the pending-timer table keeps at most one live timer per path:
scheduling preserves duplicate-freeness of the recorded paths, cancels the
previously pending timer for the path and installs the fresh one as the
path's unique entry; and the deferred processing removes the path's entry
whether or not its body raised. -/
theorem pending_table_unique (s : HandlerState) (p : String) :
    ((s.pending.map Prod.fst).Nodup →
       ((schedule_file_processing s p).pending.map Prod.fst).Nodup)
  ∧ (∀ raises, (s.pending.map Prod.fst).Nodup →
       ((process_file_pending s p raises).pending.map Prod.fst).Nodup)
  ∧ (∀ e, s.pending.find? (fun x => x.1 = p) = some e →
       (schedule_file_processing s p).cancelled.contains e.2 = true)
  ∧ ((schedule_file_processing s p).pending.find? (fun x => x.1 = p)
       = some (p, s.next_id))
  ∧ (∀ raises,
       (process_file_pending s p raises).pending.find? (fun x => x.1 = p)
         = none) := by
  have hsub : ∀ (l : List (String × Nat)),
      List.Sublist ((l.filter (fun e => ¬ e.1 = p)).map Prod.fst)
        (l.map Prod.fst) :=
    fun l => List.Sublist.map Prod.fst (List.filter_sublist l)
  refine ⟨?_, ?_, ?_, ?_, ?_⟩
  · intro hnd
    simp only [schedule_file_processing, List.map_cons, List.nodup_cons]
    constructor
    · intro hmem
      rcases List.mem_map.mp hmem with ⟨e, he, hfst⟩
      rcases List.mem_filter.mp he with ⟨_, hne⟩
      simp only [decide_not, Bool.not_eq_eq_eq_not, Bool.not_true,
        decide_eq_false_iff_not] at hne
      exact hne hfst
    · exact List.Nodup.sublist (hsub s.pending) hnd
  · intro raises hnd
    cases raises <;>
      exact List.Nodup.sublist (hsub s.pending) hnd
  · intro e he
    unfold schedule_file_processing
    rw [he]
    simp
  · unfold schedule_file_processing
    rw [List.find?_cons_of_pos _ (by simp)]
  · intro raises
    have : ∀ (l : List (String × Nat)),
        (l.filter (fun e => ¬ e.1 = p)).find? (fun x => x.1 = p) = none := by
      intro l
      rw [List.find?_eq_none]
      intro x hx
      rcases List.mem_filter.mp hx with ⟨_, hne⟩
      simp only [decide_not, Bool.not_eq_eq_eq_not, Bool.not_true,
        decide_eq_false_iff_not] at hne
      simpa using hne
    cases raises <;> exact this s.pending

/-- C5 witness: with path `f` pending under timer 0, scheduling again keeps
the paths duplicate-free, cancels timer 0 and installs timer 1; a (raising)
deferred processing removes the entry. -/
theorem pending_table_unique_witness :
    ((schedule_file_processing ⟨[("f", 0)], [], 1⟩ "f").pending.map
        Prod.fst).Nodup
  ∧ ((process_file_pending ⟨[("f", 0)], [], 1⟩ "f" true).pending.map
        Prod.fst).Nodup
  ∧ (schedule_file_processing ⟨[("f", 0)], [], 1⟩ "f").cancelled.contains 0
      = true
  ∧ (schedule_file_processing ⟨[("f", 0)], [], 1⟩ "f").pending.find?
        (fun x => x.1 = "f") = some ("f", 1)
  ∧ (process_file_pending ⟨[("f", 0)], [], 1⟩ "f" true).pending.find?
        (fun x => x.1 = "f") = none := by
  refine ⟨(pending_table_unique _ "f").1 (by decide),
          (pending_table_unique _ "f").2.1 true (by decide),
          (pending_table_unique _ "f").2.2.1 ("f", 0) (by decide),
          (pending_table_unique _ "f").2.2.2.1,
          (pending_table_unique _ "f").2.2.2.2 true⟩

/-- C9 counterexample: when a regular file already occupies `d/PDFs`,
`check_create_dir` returns without error — twice over — yet no directory
`d/PDFs` exists after either call, so the claim's unconditional form fails. -/
theorem check_create_dir_blocked_by_file :
    check_create_dir ⟨[(["d", "PDFs"], "junk")], [["d"]]⟩ ["d"] "PDFs"
      = .ok ⟨[(["d", "PDFs"], "junk")], [["d"]]⟩
  ∧ FS.dirExists ⟨[(["d", "PDFs"], "junk")], [["d"]]⟩ ["d", "PDFs"] = false :=
  ⟨rfl, rfl⟩

/-- C9 (amended): provided no regular file occupies `path/name`,
`check_create_dir` succeeds without error, the directory `path/name` exists
after the call, and an identical second call is an error-free no-op returning
the same filesystem (idempotence). -/
theorem check_create_dir_idempotent (fs : FS) (path : FPath) (name : String)
    (hfile : fs.fileExists (path ++ [name]) = false) :
    (check_create_dir fs path name).isOk = true
  ∧ ∀ fs₁, check_create_dir fs path name = .ok fs₁ →
      fs₁.dirExists (path ++ [name]) = true
      ∧ check_create_dir fs₁ path name = .ok fs₁ := by
  cases hd : fs.dirExists (path ++ [name]) with
  | true =>
    have hcc : check_create_dir fs path name = .ok fs := by
      simp [check_create_dir, FS.pexists, hfile, hd]
    refine ⟨by rw [hcc]; rfl, ?_⟩
    intro fs₁ h₁
    rw [hcc] at h₁
    cases h₁
    exact ⟨hd, hcc⟩
  | false =>
    have hcc : check_create_dir fs path name
        = .ok (fs.addDir (path ++ [name])) := by
      simp [check_create_dir, FS.pexists, hfile, hd, py_mkdir]
    refine ⟨by rw [hcc]; rfl, ?_⟩
    intro fs₁ h₁
    rw [hcc] at h₁
    cases h₁
    have hd₁ : (fs.addDir (path ++ [name])).dirExists (path ++ [name])
        = true := by
      simp [FS.addDir, FS.dirExists]
    refine ⟨hd₁, ?_⟩
    simp [check_create_dir, FS.pexists, hd₁]

/-- C9 witness: creating `d/PDFs` in a filesystem holding only directory `d`,
then calling again on the result. -/
theorem check_create_dir_idempotent_witness :
    FS.fileExists ⟨[], [["d"]]⟩ ["d", "PDFs"] = false
  ∧ (check_create_dir ⟨[], [["d"]]⟩ ["d"] "PDFs").isOk = true
  ∧ FS.dirExists ⟨[], [["d", "PDFs"], ["d"]]⟩ ["d", "PDFs"] = true
  ∧ check_create_dir ⟨[], [["d", "PDFs"], ["d"]]⟩ ["d"] "PDFs"
      = .ok ⟨[], [["d", "PDFs"], ["d"]]⟩ := by
  have h := check_create_dir_idempotent ⟨[], [["d"]]⟩ ["d"] "PDFs" rfl
  have h2 := h.2 ⟨[], [["d", "PDFs"], ["d"]]⟩ rfl
  exact ⟨rfl, h.1, h2.1, h2.2⟩

theorem find?_key_of_mem_nodup (l : List (String × String)) (k v : String)
    (hnd : (l.map Prod.fst).Nodup) (hm : (k, v) ∈ l) :
    l.find? (fun e => e.1 = k) = some (k, v) := by
  induction l with
  | nil => cases hm
  | cons a t ih =>
    rw [List.map_cons, List.nodup_cons] at hnd
    rcases List.mem_cons.mp hm with h | h
    · rw [← h]
      exact List.find?_cons_of_pos _ (by simp)
    · have hne : ¬ a.1 = k := by
        intro hk
        exact hnd.1 (hk ▸ List.mem_map.mpr ⟨(k, v), h, rfl⟩)
      rw [List.find?_cons_of_neg _ (by simpa using hne)]
      exact ih hnd.2 h

theorem resolveTargetAux_free (fs : FS) (d : FPath) (st sf : String) :
    ∀ (fuel counter : Nat) (tgt t : FPath),
      resolveTargetAux fs d st sf fuel counter tgt = some t →
      fs.pexists t = false := by
  intro fuel
  induction fuel with
  | zero =>
    intro counter tgt t h
    unfold resolveTargetAux at h
    by_cases hp : fs.pexists tgt = true
    · rw [if_pos hp] at h
      cases h
    · rw [if_neg hp] at h
      cases h
      simpa using hp
  | succ f ih =>
    intro counter tgt t h
    unfold resolveTargetAux at h
    by_cases hp : fs.pexists tgt = true
    · rw [if_pos hp] at h
      exact ih _ _ _ h
    · rw [if_neg hp] at h
      cases h
      simpa using hp

theorem find?_filter_ne (l : List (FPath × String)) (p q : FPath)
    (hne : p ≠ q) :
    (l.filter (fun e => ¬ e.1 = q)).find? (fun e => e.1 = p)
      = l.find? (fun e => e.1 = p) := by
  induction l with
  | nil => rfl
  | cons a t ih =>
    by_cases haq : a.1 = q
    · have hap : ¬ a.1 = p := fun h => hne ((h ▸ haq).symm ▸ rfl)
      rw [List.filter_cons_of_neg (by simpa using haq), ih,
        List.find?_cons_of_neg _ (by simpa using hap)]
    · rw [List.filter_cons_of_pos (by simpa using haq)]
      by_cases hap : a.1 = p
      · rw [List.find?_cons_of_pos _ (by simpa using hap),
          List.find?_cons_of_pos _ (by simpa using hap)]
      · rw [List.find?_cons_of_neg _ (by simpa using hap),
          List.find?_cons_of_neg _ (by simpa using hap), ih]

theorem fileContent_setFile (fs : FS) (q : FPath) (c : String) (p : FPath) :
    (fs.setFile q c).fileContent p
      = if p = q then some c else fs.fileContent p := by
  unfold FS.setFile FS.fileContent
  by_cases h : p = q
  · subst h
    rw [List.find?_cons_of_pos _ (by simp), if_pos rfl]
    rfl
  · rw [List.find?_cons_of_neg _ (by simp; exact fun hq => h hq.symm),
      if_neg h]
    simp only [find?_filter_ne _ _ _ h]

theorem fileContent_removeFile (fs : FS) (q p : FPath) :
    (fs.removeFile q).fileContent p
      = if p = q then none else fs.fileContent p := by
  unfold FS.removeFile FS.fileContent
  by_cases h : p = q
  · subst h
    rw [if_pos rfl, List.find?_eq_none.mpr]
    · rfl
    · intro x hx
      rcases List.mem_filter.mp hx with ⟨_, hne⟩
      simpa using of_decide_eq_true hne
  · rw [if_neg h]
    simp only [find?_filter_ne _ _ _ h]

theorem shutil_move_content (fs : FS) (src dst : FPath) (fs' : FS)
    (h : shutil_move fs src dst = .ok fs') (p : FPath) :
    fs'.fileContent p
      = if p = dst then fs.fileContent src
        else if p = src then none else fs.fileContent p := by
  unfold shutil_move at h
  cases hc : fs.fileContent src with
  | none =>
    simp only [hc] at h
    cases h
  | some c =>
    simp only [hc] at h
    by_cases hd : fs.dirExists dst.dropLast = true
    · rw [if_pos hd] at h
      cases h
      rw [fileContent_setFile, fileContent_removeFile]
    · rw [if_neg hd] at h
      cases h

/-- The CLI mover never destroys data: whenever
`CrossPlatformFileOrganizer._move_file` returns, every pre-existing file
other than the moved source keeps its exact content — the chosen target name
is always a free one, at every collision depth. (Contrast with
`move_data_overwrites`.) -/
theorem move_file_no_overwrite (fs : FS) (src_dir : FPath) (name : String)
    (target_dir : FPath) (fuel : Nat) (b : Bool) (fs' : FS)
    (h : move_file fs src_dir name target_dir fuel = some (b, fs')) :
    ∀ p, p ≠ src_dir ++ [name] → fs.fileExists p = true →
      fs'.fileContent p = fs.fileContent p := by
  intro p hpsrc hpex
  unfold move_file at h
  cases hr : resolveTarget fs target_dir name fuel with
  | none =>
    simp only [hr] at h
    cases h
  | some tgt =>
    simp only [hr] at h
    have htfree : fs.pexists tgt = false := by
      unfold resolveTarget at hr
      exact resolveTargetAux_free fs target_dir _ _ fuel 1 _ tgt hr
    have hptgt : p ≠ tgt := by
      intro hpt
      have : fs.pexists p = true := by
        unfold FS.pexists
        rw [hpex]
        rfl
      rw [hpt, htfree] at this
      cases this
    cases hm : shutil_move fs (src_dir ++ [name]) tgt with
    | error e =>
      simp only [hm] at h
      cases h
      rfl
    | ok fs₂ =>
      simp only [hm] at h
      cases h
      rw [shutil_move_content fs _ _ _ hm p, if_neg hptgt, if_neg hpsrc]

/-- A first name collision in the CLI mover resolves to `<stem>_1<ext>`,
leaving the existing file intact. -/
theorem move_file_collision_depth1 :
    move_file
      ⟨[(["s", "report.pdf"], "new"), (["d", "report.pdf"], "old")],
        [["s"], ["d"]]⟩
      ["s"] "report.pdf" ["d"] 5
      = some (true,
          ⟨[(["d", "report_1.pdf"], "new"), (["d", "report.pdf"], "old")],
            [["s"], ["d"]]⟩) := by
  rfl

/-- A second name collision in the CLI mover resolves to `<stem>_2<ext>`,
leaving both existing files intact. -/
theorem move_file_collision_depth2 :
    move_file
      ⟨[(["s", "report.pdf"], "v3"), (["d", "report.pdf"], "v1"),
          (["d", "report_1.pdf"], "v2")], [["s"], ["d"]]⟩
      ["s"] "report.pdf" ["d"] 5
      = some (true,
          ⟨[(["d", "report_2.pdf"], "v3"), (["d", "report.pdf"], "v1"),
              (["d", "report_1.pdf"], "v2")], [["s"], ["d"]]⟩) := by
  rfl

/-- C1 (code bug): the core mover `FileOrganizer.move_data` — the path used
by the file watcher — performs no collision resolution at all: moving
`report.pdf` from `d` into `d/PDFs` when `d/PDFs/report.pdf` already exists
silently replaces the existing file's content (the old content is destroyed
and no `report_1.pdf` is created), and the call still reports success. The
CLI mover `_move_file` does implement the claimed `<stem>_N<ext>` renaming
(`move_file_collision_depth1`, `move_file_collision_depth2`,
`move_file_no_overwrite`). -/
theorem move_data_overwrites :
    move_data
      ⟨[(["d", "report.pdf"], "new"), (["d", "PDFs", "report.pdf"], "old")],
        [["d"], ["d", "PDFs"]]⟩
      ["d"] "PDFs" "report.pdf"
      = (true,
          ⟨[(["d", "PDFs", "report.pdf"], "new")], [["d"], ["d", "PDFs"]]⟩)
  ∧ FS.fileContent
      ⟨[(["d", "PDFs", "report.pdf"], "new")], [["d"], ["d", "PDFs"]]⟩
      ["d", "PDFs", "report_1.pdf"] = none :=
  ⟨rfl, rfl⟩

/-- C3 (code bug): `check_and_move` returns `True` even though the move step
failed and the file was not relocated: with `d/report.pdf` absent (the source
vanished before the move), `move_data` returns `False` and moves nothing, yet
`check_and_move` reports success — so `organize` adds the failure to
`success_count` instead of the error tally. Only an exception escaping a step
(not a failed move) produces `False`. -/
theorem check_and_move_success_despite_failed_move :
    check_and_move ⟨[], [["d"]]⟩ ⟨[("application/pdf", "PDFs")], "Other_Files"⟩
        "report.pdf" "application/pdf" ["d"]
      = (true, ⟨[], [["d", "PDFs"], ["d"]]⟩) := rfl

/-- C8 counterexample: in the core organizer a detection failure does not
substitute a generic identifier — the file is skipped entirely: with the
detector raising on `mystery.bin`, `organize` moves nothing and counts
nothing (processed = 0, not 1), where the claim requires the file to still be
counted and organized under a fallback type. -/
theorem organize_skips_file_on_detector_failure :
    organize ⟨[("application/octet-stream", "Binary_Files")], "Other_Files"⟩
        (fun _ => none) ["d"] ["mystery.bin"]
        ⟨[(["d", "mystery.bin"], "data")], [["d"]]⟩
      = (⟨0, 0⟩, ⟨[(["d", "mystery.bin"], "data")], [["d"]]⟩) := rfl

/-- C8 (amended): a content-type detection failure never aborts a scan, but
the two organizers differ: the CLI's `_get_file_type` substitutes
`application/octet-stream` (whether `python-magic` or the `mimetypes`
fallback failed) so the file is still processed, while the core `organize`
catches the failure and skips the file — no counter advances, no move — and
the scan continues over the remaining files exactly as if the file were not
listed. -/
theorem detection_failure_behavior :
    (∀ has_magic, get_file_type has_magic none none
        = "application/octet-stream")
  ∧ (∀ (config : MappingConfig) (detector : String → Option String)
        (path : FPath) (file : String) (rest : List String) (fs : FS),
      detector file = none →
      organize config detector path (file :: rest) fs
        = organize config detector path rest fs) := by
  constructor
  · intro has_magic
    cases has_magic <;> rfl
  · intro config detector path file rest fs hdet
    unfold organize
    rw [List.foldl_cons]
    cases hf : fs.fileExists (path ++ [file]) <;>
      simp [organize_step, hf, hdet]

/-- C8 witness: the CLI fallback identifier on a failed detection, and a
one-file core scan where the failed file is skipped. -/
theorem detection_failure_behavior_witness :
    get_file_type true none none = "application/octet-stream"
  ∧ organize ⟨[("application/octet-stream", "Binary_Files")], "Other_Files"⟩
        (fun _ => none) ["d"] ["m.bin", "other.bin"]
        ⟨[(["d", "m.bin"], "data")], [["d"]]⟩
      = organize ⟨[("application/octet-stream", "Binary_Files")], "Other_Files"⟩
        (fun _ => none) ["d"] ["other.bin"]
        ⟨[(["d", "m.bin"], "data")], [["d"]]⟩ :=
  ⟨detection_failure_behavior.1 true,
   detection_failure_behavior.2 _ _ _ "m.bin" ["other.bin"] _ rfl⟩

/-- C2: `get_folder_name` returns, in order of precedence: the folder of an
exact table entry for the full type string (regardless of any overlapping
prefix entries, given that table keys are unique as in a Python dict); else
the folder of the first entry in table order whose key is a prefix of the
type; else the default folder. It is a total Lean function over all type
strings, with no error outcome. -/
theorem get_folder_name_resolution (config : MappingConfig)
    (file_type : String) :
    ((config.file_type.map Prod.fst).Nodup →
      ∀ folder, (file_type, folder) ∈ config.file_type →
        get_folder_name file_type config = folder)
  ∧ (config.file_type.find? (fun e => e.1 = file_type) = none →
      ∀ e, config.file_type.find? (fun e => pyStartsWith file_type e.1)
          = some e →
        get_folder_name file_type config = e.2)
  ∧ (config.file_type.find? (fun e => e.1 = file_type) = none →
      config.file_type.find? (fun e => pyStartsWith file_type e.1) = none →
      get_folder_name file_type config = config.default) := by
  refine ⟨?_, ?_, ?_⟩
  · intro hnd folder hm
    unfold get_folder_name
    rw [find?_key_of_mem_nodup _ _ _ hnd hm]
  · intro h1 e h2
    unfold get_folder_name
    rw [h1, h2]
  · intro h1 h2
    unfold get_folder_name
    rw [h1, h2]

/-- C2 witness: an exact entry wins even against an earlier overlapping
prefix entry; a prefix entry resolves `image/png`; an unmatched type falls
back to the default. -/
theorem get_folder_name_resolution_witness :
    get_folder_name "application/pdf"
      ⟨[("application/", "Apps"), ("application/pdf", "PDFs")], "Other_Files"⟩
      = "PDFs"
  ∧ get_folder_name "image/png"
      ⟨[("application/pdf", "PDFs"), ("image/", "Images")], "Other_Files"⟩
      = "Images"
  ∧ get_folder_name "weird"
      ⟨[("application/pdf", "PDFs"), ("image/", "Images")], "Other_Files"⟩
      = "Other_Files" := by
  refine ⟨(get_folder_name_resolution _ _).1 (by decide) "PDFs" (by decide),
          (get_folder_name_resolution _ _).2.1 (by decide)
            ("image/", "Images") (by decide),
          (get_folder_name_resolution _ _).2.2 (by decide) (by decide)⟩

/-- C7 witness: the disabled no-op and the successful start at concrete
states. -/
theorem start_watching_spec_witness :
    start_watching (fun _ => true) (fun _ => true) ⟨["/a"], false⟩ ⟨false, []⟩
      = (false, ⟨false, []⟩)
  ∧ start_watching (fun _ => true) (fun _ => true) ⟨["/a"], true⟩ ⟨false, []⟩
      = (true, ⟨true, ["/a"]⟩) := by
  constructor
  · exact (start_watching_spec (fun _ => true) (fun _ => true)
      ⟨["/a"], false⟩ ⟨false, []⟩ rfl).1 rfl
  · have := (start_watching_spec (fun _ => true) (fun _ => true)
      ⟨["/a"], true⟩ ⟨false, []⟩ rfl).2 rfl
    simpa using this

theorem pySplitExt_test1 : pySplitExt "report.pdf" = ("report", ".pdf") := by decide

theorem pySplitExt_test2 : pySplitExt "archive.tar.gz" = ("archive.tar", ".gz") := by decide

theorem pySplitExt_test3 : pySplitExt "README" = ("README", "") := by decide

theorem pySplitExt_test4 : pySplitExt ".bashrc" = (".bashrc", "") := by decide

theorem get_folder_name_exact_test :
    get_folder_name "application/pdf"
      ⟨[("image/", "Images"), ("application/pdf", "PDFs")], "Other_Files"⟩ = "PDFs" := by
  decide

theorem get_folder_name_prefix_test :
    get_folder_name "image/png"
      ⟨[("image/", "Images"), ("application/pdf", "PDFs")], "Other_Files"⟩ = "Images" := by
  decide

theorem get_folder_name_default_test :
    get_folder_name "foo/bar"
      ⟨[("image/", "Images"), ("application/pdf", "PDFs")], "Other_Files"⟩ = "Other_Files" := by
  decide
